import Mathlib

/-!
Verification of the incremental payslip-sync engine.

This file gives a shallow embedding, in Lean 4, of the core logic of the
repository (date_utils.py, csv_handler.py, summary_calculator.py,
network_handler.py, main_controller.py) and proves properties of the
embedded definitions.  Python machine values are modelled as follows:
Python int becomes Int, Python float becomes the rationals (the programs
only add and compare small decimal literals, where float arithmetic is
exact), Python str becomes String (operated on through its list of
characters), Python sets become Finset, and dict-shaped records become
structures.  Functions that perform I/O are modelled over explicit
environment values describing the outcome of each external effect.
-/

/-! ## Generic models of Python primitives -/

/-- Model of Python list-membership-based substring search: true when the
first list occurs contiguously inside the second (needle prefix check). -/
def listStartsWith : List Char → List Char → Bool
  | [], _ => true
  | _ :: _, [] => false
  | a :: as, b :: bs => a = b && listStartsWith as bs

/-- Model of the Python operator checking that the needle occurs as a
contiguous substring of the haystack (scanning every start position). -/
def pyInChars (needle : List Char) : List Char → Bool
  | [] => needle.isEmpty
  | c :: rest => listStartsWith needle (c :: rest) || pyInChars needle rest

/-- Model of the Python substring test on strings. -/
def pyIn (needle haystack : String) : Bool :=
  pyInChars needle.data haystack.data

/-- Numeric value of a list of decimal digit characters, as produced by
the Python int constructor on a digit-only string. -/
def natOfDigits (ds : List Char) : Nat :=
  ds.foldl (fun a c => 10 * a + (c.toNat - 48)) 0

/-! ## date_utils.py -/

/-- A calendar date as used by the window generators: datetime.date with
its year, month (1..12) and day-of-month fields. -/
structure Date where
  year : Int
  month : Nat
  day : Nat
deriving DecidableEq

/-- One payroll month key.  The source represents it as the rendered
string built from the era-relative year and the 2-digit month; since that
rendering is injective on the values the program produces, the key is
modelled by its two numeric components. -/
structure MonthKey where
  reiwaYear : Int
  month : Nat
deriving DecidableEq

/-- Linear index of a Gregorian (year, month) pair, used to reason about
the month-by-month iteration of the generators. -/
def monthIdx (y : Int) (m : Nat) : Int :=
  12 * y + (m : Int) - 1

/-- Linear index of the Gregorian month denoted by a key (era offset
2018, matching the conversion reiwa plus 2018 in the source). -/
def keyIdx (k : MonthKey) : Int :=
  monthIdx (k.reiwaYear + 2018) k.month

/-- The while-loop of generate_target_months (and of the full-scan
variant): starting from the current (year, month) it appends the key of
every month up to the inclusive end bound, carrying into the next year
after month 12.  The loop in the source terminates because each step
moves one month forward; here that measure is supplied as fuel, which
the callers compute exactly. -/
def collectMonthsFuel : Nat → Int → Nat → Int → Nat → List MonthKey
  | 0, _, _, _, _ => []
  | fuel + 1, curY, curM, endY, endM =>
    if curY > endY ∨ (curY = endY ∧ curM > endM) then []
    else
      MonthKey.mk (curY - 2018) curM ::
        (if curM + 1 > 12 then collectMonthsFuel fuel (curY + 1) 1 endY endM
         else collectMonthsFuel fuel curY (curM + 1) endY endM)

/-- Number of loop iterations between the start month and the end month,
the exact amount of fuel the loop consumes. -/
def monthSpanFuel (startY : Int) (startM : Nat) (endY : Int) (endM : Nat) : Nat :=
  (monthIdx endY endM + 1 - monthIdx startY startM).toNat

/-- Embedding of generate_target_months (date_utils.py): for a ui year
equal to the current year the window runs from March of the previous year
to the current month, dropping the current month when the day-of-month is
below 12 (with January regressing to December of the previous year); for
any other ui year it is January to December of that year. -/
def generate_target_months (today : Date) (ui_year : Int) : List MonthKey :=
  if ui_year = today.year then
    let start_year : Int := today.year - 1
    let start_month : Nat := 3
    let end_pair : Int × Nat :=
      if today.day < 12 then
        (if today.month = 1 then (today.year - 1, 12) else (today.year, today.month - 1))
      else (today.year, today.month)
    collectMonthsFuel (monthSpanFuel start_year start_month end_pair.1 end_pair.2)
      start_year start_month end_pair.1 end_pair.2
  else
    collectMonthsFuel (monthSpanFuel ui_year 1 ui_year 12) ui_year 1 ui_year 12

/-- Embedding of generate_target_months_for_full_scan (date_utils.py):
the window runs from January 2019 to the same adjusted end month as the
current-year window. -/
def generate_target_months_for_full_scan (today : Date) : List MonthKey :=
  let end_pair : Int × Nat :=
    if today.day < 12 then
      (if today.month = 1 then (today.year - 1, 12) else (today.year, today.month - 1))
    else (today.year, today.month)
  collectMonthsFuel (monthSpanFuel 2019 1 end_pair.1 end_pair.2)
    2019 1 end_pair.1 end_pair.2

/-- Membership in the month-collection loop is exactly membership in the
inclusive index interval between the start month and the end month. -/
theorem collectMonthsFuel_mem (fuel : Nat) :
    ∀ (curY endY : Int) (curM endM : Nat) (k : MonthKey),
      1 ≤ curM → curM ≤ 12 → 1 ≤ endM → endM ≤ 12 →
      (monthIdx endY endM + 1 - monthIdx curY curM).toNat ≤ fuel →
      (k ∈ collectMonthsFuel fuel curY curM endY endM ↔
        (1 ≤ k.month ∧ k.month ≤ 12 ∧
          monthIdx curY curM ≤ keyIdx k ∧ keyIdx k ≤ monthIdx endY endM)) := by
  induction fuel with
  | zero =>
    intro curY endY curM endM k h1 h2 h3 h4 hfuel
    obtain ⟨r, m⟩ := k
    simp only [collectMonthsFuel, List.not_mem_nil, false_iff, keyIdx, monthIdx] at *
    omega
  | succ fuel ih =>
    intro curY endY curM endM k h1 h2 h3 h4 hfuel
    by_cases hg : curY > endY ∨ (curY = endY ∧ curM > endM)
    · obtain ⟨r, m⟩ := k
      simp only [collectMonthsFuel, if_pos hg, List.not_mem_nil, false_iff,
        keyIdx, monthIdx] at *
      omega
    · by_cases hc : curM + 1 > 12
      · have hrec := ih (curY + 1) endY 1 endM k (by omega) (by omega) h3 h4
          (by simp only [monthIdx] at hfuel ⊢; omega)
        obtain ⟨r, m⟩ := k
        simp only [collectMonthsFuel, if_neg hg, if_pos hc, List.mem_cons, hrec,
          MonthKey.mk.injEq, keyIdx, monthIdx] at *
        omega
      · have hrec := ih curY endY (curM + 1) endM k (by omega) (by omega) h3 h4
          (by simp only [monthIdx] at hfuel ⊢; omega)
        obtain ⟨r, m⟩ := k
        simp only [collectMonthsFuel, if_neg hg, if_neg hc, List.mem_cons, hrec,
          MonthKey.mk.injEq, keyIdx, monthIdx] at *
        omega

/-- Characterization of the current-year window: membership is exactly
the index interval from March of the previous year to the day-adjusted
end month. -/
theorem mem_generate_target_months_currentYear (d : Date) (h1 : 1 ≤ d.month)
    (h2 : d.month ≤ 12) (k : MonthKey) :
    k ∈ generate_target_months d d.year ↔
      (1 ≤ k.month ∧ k.month ≤ 12 ∧
        monthIdx (d.year - 1) 3 ≤ keyIdx k ∧
        keyIdx k ≤ (if d.day < 12 then
            (if d.month = 1 then monthIdx (d.year - 1) 12
             else monthIdx d.year (d.month - 1))
          else monthIdx d.year d.month)) := by
  by_cases hd : d.day < 12
  · by_cases hm : d.month = 1
    · simp only [generate_target_months, if_pos rfl, if_pos hd, if_pos hm]
      exact collectMonthsFuel_mem _ _ _ _ _ k (by omega) (by omega) (by omega)
        (by omega) (le_refl _)
    · simp only [generate_target_months, if_pos rfl, if_pos hd, if_neg hm]
      exact collectMonthsFuel_mem _ _ _ _ _ k (by omega) (by omega) (by omega)
        (by omega) (le_refl _)
  · simp only [generate_target_months, if_pos rfl, if_neg hd]
    exact collectMonthsFuel_mem _ _ _ _ _ k (by omega) (by omega) (by omega)
      (by omega) (le_refl _)

/-- Characterization of the other-year window: membership is exactly the
twelve months of the requested ui year. -/
theorem mem_generate_target_months_otherYear (d : Date) (ui_year : Int)
    (hne : ui_year ≠ d.year) (k : MonthKey) :
    k ∈ generate_target_months d ui_year ↔
      (k.reiwaYear = ui_year - 2018 ∧ 1 ≤ k.month ∧ k.month ≤ 12) := by
  have h := collectMonthsFuel_mem (monthSpanFuel ui_year 1 ui_year 12)
    ui_year ui_year 1 12 k (by omega) (by omega) (by omega) (by omega) (le_refl _)
  simp only [generate_target_months, if_neg hne, h]
  obtain ⟨r, m⟩ := k
  simp only [keyIdx, monthIdx]
  omega

/-- C2: for every current date d and a ui year equal to the current year,
the generated window always starts at March of the previous calendar year
regardless of the day-of-month, and its upper bound is the current month
when the day-of-month is at least 12, and one month earlier otherwise,
with January regressing to December of the previous year. -/
theorem c2_targetedYear_currentYear_window (d : Date) (h1 : 1 ≤ d.month)
    (h2 : d.month ≤ 12) :
    MonthKey.mk (d.year - 1 - 2018) 3 ∈ generate_target_months d d.year ∧
    (∀ k : MonthKey, k ∈ generate_target_months d d.year ↔
      (1 ≤ k.month ∧ k.month ≤ 12 ∧
        monthIdx (d.year - 1) 3 ≤ keyIdx k ∧
        keyIdx k ≤ (if d.day < 12 then
            (if d.month = 1 then monthIdx (d.year - 1) 12
             else monthIdx d.year (d.month - 1))
          else monthIdx d.year d.month))) := by
  refine ⟨?_, fun k => mem_generate_target_months_currentYear d h1 h2 k⟩
  rw [mem_generate_target_months_currentYear d h1 h2]
  simp only [keyIdx, monthIdx]
  split_ifs <;> simp <;> omega

/-- C2 witness: the characterization applied to 2025-06-05 shows March
2024 is in the window. -/
theorem c2_witness :
    MonthKey.mk (2025 - 1 - 2018) 3 ∈ generate_target_months (Date.mk 2025 6 5) 2025 :=
  (c2_targetedYear_currentYear_window (Date.mk 2025 6 5) (by decide) (by decide)).1

/-- C6: for every current date and every ui year different from the
current year, the generated window is exactly the twelve months January
through December of the ui year, with no day-of-month adjustment (the
characterization does not depend on the day at all). -/
theorem c6_targetedYear_otherYear_window (d : Date) (ui_year : Int)
    (hne : ui_year ≠ d.year) :
    ∀ k : MonthKey, k ∈ generate_target_months d ui_year ↔
      (k.reiwaYear = ui_year - 2018 ∧ 1 ≤ k.month ∧ k.month ≤ 12) :=
  fun k => mem_generate_target_months_otherYear d ui_year hne k

/-- C6 witness: May of 2020 is in the window generated on 2025-06-15 for
ui year 2020. -/
theorem c6_witness :
    MonthKey.mk 2 5 ∈ generate_target_months (Date.mk 2025 6 15) 2020 :=
  (c6_targetedYear_otherYear_window (Date.mk 2025 6 15) 2020 (by decide)
    (MonthKey.mk 2 5)).mpr (by decide)

/-- C7 counterexample: a ui year far in the future of the current date,
the case the claim names, produces the full twelve-month window of that
year, not an empty set. -/
theorem c7_counterexample :
    generate_target_months (Date.mk 2025 6 15) 3000 ≠ [] ∧
    (generate_target_months (Date.mk 2025 6 15) 3000).length = 12 := by
  decide

/-- C7 amended: in targetedYear mode the generated window is never empty
for any current date and ui year; a start bound after the end bound (and
an empty window) can only arise in the full-scan generator, for example
when today predates the adjusted January 2019 start. -/
theorem c7_amended :
    (∀ (d : Date) (ui_year : Int), 1 ≤ d.month → d.month ≤ 12 →
      generate_target_months d ui_year ≠ []) ∧
    generate_target_months_for_full_scan (Date.mk 2018 12 5) = [] := by
  refine ⟨fun d ui_year h1 h2 => ?_, by decide⟩
  by_cases hui : ui_year = d.year
  · subst hui
    refine List.ne_nil_of_mem (a := MonthKey.mk (d.year - 1 - 2018) 3) ?_
    rw [mem_generate_target_months_currentYear d h1 h2]
    simp only [keyIdx, monthIdx]
    split_ifs <;> simp <;> omega
  · refine List.ne_nil_of_mem (a := MonthKey.mk (ui_year - 2018) 1) ?_
    rw [mem_generate_target_months_otherYear d ui_year hui]
    simp

/-- C7 amended witness: the window of 2024-03-01 for ui year 2024 is not
empty. -/
theorem c7_witness : generate_target_months (Date.mk 2024 3 1) 2024 ≠ [] :=
  c7_amended.1 (Date.mk 2024 3 1) 2024 (by decide) (by decide)

/-! ## Dynamic cell values -/

/-- A dynamically typed Python value held in one record field: an int, a
float (modelled as a rational) or a string (which is how the sentinel
text and unparseable raw values are carried). -/
inductive CellValue where
  | int (n : Int)
  | float (q : ℚ)
  | str (s : String)
deriving DecidableEq

/-- One row of the dataset: the date label plus the six numeric columns,
in the order of the fixed CSV header.  A missing date column is carried
as the empty string, which the source treats identically (both are falsy
and fail every substring test). -/
structure PayslipRow where
  dateLabel : String
  totalPay : CellValue
  netPay : CellValue
  overtime : CellValue
  paidLeaveTime : CellValue
  paidLeaveUsedDays : CellValue
  paidLeaveRemainingDays : CellValue
deriving DecidableEq

/-! ## Models of the Python numeric constructors -/

/-- Model of the Python int constructor on a string: surrounding
whitespace is ignored, an optional sign precedes a nonempty run of
decimal digits; anything else raises, modelled as none. -/
def pythonIntOfString (s : String) : Option Int :=
  let cs := s.data.dropWhile Char.isWhitespace
  let cs := (cs.reverse.dropWhile Char.isWhitespace).reverse
  match cs with
  | '-' :: ds => if ds ≠ [] ∧ ds.all Char.isDigit then some (-(natOfDigits ds : Int)) else none
  | '+' :: ds => if ds ≠ [] ∧ ds.all Char.isDigit then some (natOfDigits ds) else none
  | ds => if ds ≠ [] ∧ ds.all Char.isDigit then some (natOfDigits ds) else none

/-- Model of the Python float constructor on a string, restricted to the
plain decimal literals the portal and the CSV produce: surrounding
whitespace, an optional sign, then digits with an optional fractional
part (exponent, infinity and nan spellings are not modelled).  Anything
else raises, modelled as none. -/
def pythonFloatOfString (s : String) : Option ℚ :=
  let cs := s.data.dropWhile Char.isWhitespace
  let cs := (cs.reverse.dropWhile Char.isWhitespace).reverse
  let signed : ℚ × List Char :=
    match cs with
    | '-' :: rest => (-1, rest)
    | '+' :: rest => (1, rest)
    | rest => (1, rest)
  let ip := signed.2.takeWhile Char.isDigit
  match signed.2.drop ip.length with
  | [] => if ip ≠ [] then some (signed.1 * natOfDigits ip) else none
  | '.' :: fp =>
    if (ip ≠ [] ∨ fp ≠ []) ∧ fp.all Char.isDigit then
      some (signed.1 * ((natOfDigits ip : ℚ) + (natOfDigits fp : ℚ) / 10 ^ fp.length))
    else none
  | _ => none

/-- Model of the Python str.replace call removing every comma. -/
def removeCommas (s : String) : String :=
  String.mk (s.data.filter (fun c => c ≠ ','))

/-! ## csv_handler.py -/

/-- Embedding of safe_convert_to_float (csv_handler.py): None and the
sentinel text map to the sentinel; otherwise the day-unit suffix
character is removed, the text is stripped and converted with the float
constructor, falling back to the sentinel when conversion raises. -/
def safe_convert_to_float (value : Option String) : CellValue :=
  match value with
  | none => CellValue.str ("N/A")
  | some v =>
    if v = "N/A" then CellValue.str ("N/A")
    else
      match pythonFloatOfString (String.mk (v.data.filter (fun c => c ≠ '日'))) with
      | some q => CellValue.float q
      | none => CellValue.str ("N/A")

/-- One raw CSV row as produced by the dict reader: an association list
from column name to the cell text (a column missing from the header is
simply absent). -/
def CsvRow : Type := List (String × String)

/-- The per-row conversion loop of load_existing_csv: the two integer
columns are converted with the int constructor after removing commas,
falling back to 0 when the column is missing or conversion raises; each
of the four decimal columns is read from its canonical column, falling
back to the legacy column when the canonical one is absent, and
converted with safe_convert_to_float. -/
def load_row (row : CsvRow) : PayslipRow :=
  let intField : String → Int := fun key =>
    match List.lookup key row with
    | none => 0
    | some v => (pythonIntOfString (removeCommas v)).getD 0
  let floatField : String → CellValue := fun key =>
    safe_convert_to_float ((List.lookup key row).or (List.lookup ("残有給日数") row))
  { dateLabel := (List.lookup ("年月日") row).getD ("")
    totalPay := CellValue.int (intField ("総支給額"))
    netPay := CellValue.int (intField ("差引支給額"))
    overtime := floatField ("総時間外")
    paidLeaveTime := floatField ("有給消化時間")
    paidLeaveUsedDays := floatField ("有給使用日数")
    paidLeaveRemainingDays := floatField ("有給残日数") }

/-- The outcome of the file-system interaction of load_existing_csv: the
file is absent, or opening, reading or parsing it raises, or it parses
into a list of raw rows. -/
inductive CsvSource where
  | absent
  | raisesDuringRead
  | rows (rs : List CsvRow)

/-- Embedding of load_existing_csv (csv_handler.py): an absent file and
any read exception both yield the empty dataset and empty key set; an
existing readable file yields the converted rows together with the set
of 8-character date-label prefixes of rows whose label has at least 8
characters. -/
def load_existing_csv : CsvSource → List PayslipRow × Finset String
  | CsvSource.absent => ([], ∅)
  | CsvSource.raisesDuringRead => ([], ∅)
  | CsvSource.rows rs =>
    (rs.map load_row,
      rs.foldl (fun acc row =>
        match List.lookup ("年月日") row with
        | some s => if 8 ≤ s.length then insert (s.take 8) acc else acc
        | none => acc) ∅)

/-- C8: the record-store load never propagates an exception: an absent
file yields the empty dataset and the empty month-key set, and any
exception raised while reading or parsing an existing file is caught and
yields the same empty dataset and empty key set.  (The function is total
on every source outcome, so no error can escape.) -/
theorem c8_load_lenient_recovery :
    load_existing_csv CsvSource.absent = ([], ∅) ∧
    load_existing_csv CsvSource.raisesDuringRead = ([], ∅) :=
  ⟨rfl, rfl⟩

/-- C9 counterexample: on a row whose canonical overtime column is
absent but whose legacy paid-leave column holds the text 3.5, the load
fills the overtime field from the legacy column (value 3.5) rather than
leaving it at the sentinel, contradicting the claim that only the
paid-leave-remaining-days column falls back. -/
theorem c9_counterexample :
    ((load_existing_csv (CsvSource.rows
        [[(("年月日"), ("令和05年03月度給与")), (("残有給日数"), ("3.5"))]])).1.map
      PayslipRow.overtime) = [CellValue.float (7 / 2)] ∧
    CellValue.float (7 / 2) ≠ CellValue.str ("N/A") := by
  refine ⟨?_, by simp⟩
  have h1 : safe_convert_to_float (some ("3.5"))
      = CellValue.float ((1 : ℚ) * (((3 : Nat) : ℚ) + ((5 : Nat) : ℚ) / 10 ^ (1 : Nat))) := rfl
  show [safe_convert_to_float (some ("3.5"))] = [CellValue.float (7 / 2)]
  rw [h1]
  norm_num

/-- C9 amended: the legacy column name is consulted as a fallback for
every one of the four decimal-typed columns whenever the canonical
column is absent from the row, not only for the
paid-leave-remaining-days column: on a row holding only the date label
and the legacy column, all four decimal fields are filled from the
legacy value. -/
theorem c9_amended_legacy_fallback_all_columns (lbl v : String) :
    (load_row [(("年月日"), lbl), (("残有給日数"), v)]).overtime
        = safe_convert_to_float (some v) ∧
    (load_row [(("年月日"), lbl), (("残有給日数"), v)]).paidLeaveTime
        = safe_convert_to_float (some v) ∧
    (load_row [(("年月日"), lbl), (("残有給日数"), v)]).paidLeaveUsedDays
        = safe_convert_to_float (some v) ∧
    (load_row [(("年月日"), lbl), (("残有給日数"), v)]).paidLeaveRemainingDays
        = safe_convert_to_float (some v) :=
  ⟨rfl, rfl, rfl, rfl⟩

/-! ## summary_calculator.py -/

/-- Model of the first regular-expression search of
parse_year_month_from_date_str: scan for the first occurrence of the era
marker followed by a maximal nonempty digit run terminated by the year
character, returning the numeric value of the digit run. -/
def findReiwaYear : List Char → Option Nat
  | [] => none
  | c :: rest =>
    if c = '令' then
      match rest with
      | '和' :: rest2 =>
        let ds := rest2.takeWhile Char.isDigit
        if ds ≠ [] ∧ (rest2.drop ds.length).head? = some ('年') then
          some (natOfDigits ds)
        else findReiwaYear rest
      | _ => findReiwaYear rest
    else findReiwaYear rest

/-- Model of the second regular-expression search of
parse_year_month_from_date_str: scan for the first occurrence of the
year character followed by a maximal nonempty digit run terminated by
the month character, returning the numeric value of the digit run. -/
def findMonthAfterNen : List Char → Option Nat
  | [] => none
  | c :: rest =>
    if c = '年' then
      let ds := rest.takeWhile Char.isDigit
      if ds ≠ [] ∧ (rest.drop ds.length).head? = some ('月') then
        some (natOfDigits ds)
      else findMonthAfterNen rest
    else findMonthAfterNen rest

/-- Embedding of parse_year_month_from_date_str (summary_calculator.py):
an empty label parses to nothing; otherwise both searches must succeed,
and the Gregorian year is the era year plus 2018. -/
def parse_year_month_from_date_str (date_str : String) : Option (Int × Nat) :=
  if date_str = "" then none
  else
    match findReiwaYear date_str.data, findMonthAfterNen date_str.data with
    | some reiwa_year, some month => some ((reiwa_year : Int) + 2018, month)
    | _, _ => none

/-- The numeric reading of a dynamically typed field used by the
aggregator loops: an int or float is its value, anything else counts as
zero (the isinstance check of the source). -/
def overtime_as_number (v : CellValue) : ℚ :=
  match v with
  | CellValue.int n => (n : ℚ)
  | CellValue.float q => q
  | CellValue.str _ => 0

/-- The loop body of calculate_nendo_overtime: records with an
unparseable date are skipped; a record dated April to December of the
target year, or January to March of the following year, contributes its
overtime value (zero when non-numeric). -/
def nendo_step (target_rekigun_year : Int) (total : ℚ) (item : PayslipRow) : ℚ :=
  match parse_year_month_from_date_str item.dateLabel with
  | none => total
  | some ym =>
    let overtime := overtime_as_number item.overtime
    if ym.1 = target_rekigun_year ∧ 4 ≤ ym.2 ∧ ym.2 ≤ 12 then total + overtime
    else if ym.1 = target_rekigun_year + 1 ∧ 1 ≤ ym.2 ∧ ym.2 ≤ 3 then total + overtime
    else total

/-- Embedding of calculate_nendo_overtime (summary_calculator.py): fold
the loop body over the whole record list starting from zero (the source
returns zero directly for an empty list, which coincides with the
fold). -/
def calculate_nendo_overtime (all_data_list : List PayslipRow)
    (target_rekigun_year : Int) : ℚ :=
  all_data_list.foldl (nendo_step target_rekigun_year) 0

/-- The fiscal-window membership test of a record, as described by the
specification: its parsed (year, month) lies in April to December of the
target year or January to March of the following year. -/
def in_nendo_window (target_rekigun_year : Int) (item : PayslipRow) : Bool :=
  match parse_year_month_from_date_str item.dateLabel with
  | none => false
  | some ym =>
    decide ((ym.1 = target_rekigun_year ∧ 4 ≤ ym.2 ∧ ym.2 ≤ 12) ∨
      (ym.1 = target_rekigun_year + 1 ∧ 1 ≤ ym.2 ∧ ym.2 ≤ 3))

/-- One step of the fiscal-year fold adds exactly the windowed
contribution of the record. -/
theorem nendo_step_eq (target_rekigun_year : Int) (total : ℚ) (item : PayslipRow) :
    nendo_step target_rekigun_year total item =
      total + (if in_nendo_window target_rekigun_year item then
        overtime_as_number item.overtime else 0) := by
  unfold nendo_step in_nendo_window
  cases hp : parse_year_month_from_date_str item.dateLabel with
  | none => simp
  | some ym =>
    by_cases hA : ym.1 = target_rekigun_year ∧ 4 ≤ ym.2 ∧ ym.2 ≤ 12
    · simp [hA]
    · by_cases hB : ym.1 = target_rekigun_year + 1 ∧ 1 ≤ ym.2 ∧ ym.2 ≤ 3
      · simp [hA, hB]
      · simp [hA, hB]

/-- The fiscal-year fold from any accumulator equals the accumulator
plus the sum of windowed contributions. -/
theorem nendo_foldl (target_rekigun_year : Int) (l : List PayslipRow) :
    ∀ a : ℚ, List.foldl (nendo_step target_rekigun_year) a l =
      a + ((l.filter (in_nendo_window target_rekigun_year)).map
        (fun r => overtime_as_number r.overtime)).sum := by
  induction l with
  | nil => intro a; simp
  | cons r t ih =>
    intro a
    rw [List.foldl_cons, ih, nendo_step_eq]
    by_cases h : in_nendo_window target_rekigun_year r
    · simp only [List.filter_cons, h, if_pos, List.map_cons, List.sum_cons]
      ring
    · simp [h, List.filter_cons]

/-- C4: for every record list and target calendar year, the fiscal-year
overtime is the sum of the overtime values of exactly those records
whose parsed month falls in April to December of the target year or
January to March of the following year, scanning the full list, with
unparseable dates and non-numeric overtime contributing zero; in
particular two records tagged to Gregorian 2023-04 (overtime 10.0) and
2023-05 (overtime 5.0) sum to 15.0 for target year 2023. -/
theorem c4_fiscal_year_overtime :
    (∀ (all_records : List PayslipRow) (calendar_year : Int),
      calculate_nendo_overtime all_records calendar_year =
        ((all_records.filter (in_nendo_window calendar_year)).map
          (fun r => overtime_as_number r.overtime)).sum) ∧
    calculate_nendo_overtime
      [PayslipRow.mk ("令和05年04月度給与") (CellValue.str ("N/A"))
        (CellValue.str ("N/A")) (CellValue.float 10) (CellValue.str ("N/A"))
        (CellValue.str ("N/A")) (CellValue.str ("N/A")),
       PayslipRow.mk ("令和05年05月度給与") (CellValue.str ("N/A"))
        (CellValue.str ("N/A")) (CellValue.float 5) (CellValue.str ("N/A"))
        (CellValue.str ("N/A")) (CellValue.str ("N/A"))] 2023 = 15 := by
  constructor
  · intro all_records calendar_year
    rw [calculate_nendo_overtime, nendo_foldl]
    ring
  · have h : calculate_nendo_overtime
        [PayslipRow.mk ("令和05年04月度給与") (CellValue.str ("N/A"))
          (CellValue.str ("N/A")) (CellValue.float 10) (CellValue.str ("N/A"))
          (CellValue.str ("N/A")) (CellValue.str ("N/A")),
         PayslipRow.mk ("令和05年05月度給与") (CellValue.str ("N/A"))
          (CellValue.str ("N/A")) (CellValue.float 5) (CellValue.str ("N/A"))
          (CellValue.str ("N/A")) (CellValue.str ("N/A"))] 2023
        = (0 : ℚ) + 10 + 5 := rfl
    rw [h]
    norm_num

/-! ## network_handler.py -/

/-- The fixed portal base path (network_handler.py). -/
def BASE_URL : String := "https://meisai.palma-svc.co.jp/users"

/-- The externally configured company code, at its fallback default. -/
def COMPANY_CODE : String := "witesi"

/-- The login page URL with the company code query parameter. -/
def LOGIN_PAGE_URL : String := BASE_URL ++ "/Login.aspx?c=" ++ COMPANY_CODE

/-- The menu page URL, the destination that defines a successful login. -/
def MENU_PAGE_URL : String := BASE_URL ++ "/PMenu.aspx"

/-- The salary list page URL. -/
def LIST_PAGE_URL : String := BASE_URL ++ "/PShowSB.aspx"

/-- The payslip detail page URL. -/
def DETAIL_PAGE_URL : String := BASE_URL ++ "/PShowSBDetail.aspx"

/-- The post-login navigation dispatch of run_automation
(network_handler.py): given the URL on which the login POST landed,
either the automaton proceeds (the URL contains the menu page path), or
the whole per-year call returns failure with no records — with the
invalid-credentials message when the URL contains the known
failure-redirect path, and the unexpected-navigation message otherwise.
The returned triple is the (success, message, new records) result of
run_automation on these paths. -/
def login_navigation_check (landing_url : String) :
    Option (Bool × String × List PayslipRow) :=
  if pyIn MENU_PAGE_URL landing_url then none
  else if pyIn ("PLoginErr") landing_url then
    some (false, "ログインに失敗しました。\nIDまたはパスワードが間違っています。", [])
  else
    some (false, "ログインに失敗しました。\n予期せぬページに遷移しました: " ++ landing_url, [])

/-- C5: when the login POST does not land on the menu page URL, the
per-year call fails hard with no records: a URL containing the known
failure-redirect path returns failure with the invalid-credentials
message and an empty record list, and any other destination returns
failure with the unexpected-navigation message, also with an empty
list. -/
theorem c5_login_failure_dispatch (landing_url : String)
    (hmenu : pyIn MENU_PAGE_URL landing_url = false) :
    (pyIn ("PLoginErr") landing_url = true →
      login_navigation_check landing_url =
        some (false, "ログインに失敗しました。\nIDまたはパスワードが間違っています。", [])) ∧
    (pyIn ("PLoginErr") landing_url = false →
      login_navigation_check landing_url =
        some (false, "ログインに失敗しました。\n予期せぬページに遷移しました: " ++ landing_url, [])) := by
  constructor <;> intro h <;> simp [login_navigation_check, hmenu, h]

/-- C5 witness: the dispatch applied to the concrete failure-redirect
URL of the portal. -/
theorem c5_witness :
    login_navigation_check ("https://meisai.palma-svc.co.jp/users/PLoginErr.aspx") =
      some (false, "ログインに失敗しました。\nIDまたはパスワードが間違っています。", []) :=
  (c5_login_failure_dispatch ("https://meisai.palma-svc.co.jp/users/PLoginErr.aspx")
    (by decide)).1 (by decide)

/-- One definition-list entry of the detail page: the term element and
the value element, each possibly absent (entries with either part
missing are skipped by the parser). -/
structure DlEntry where
  dt : Option String
  dd : Option String

/-- The six extracted fields of a detail page, keyed by the canonical
storage names of the CSV and the aggregator. -/
structure DetailData where
  totalPay : CellValue
  netPay : CellValue
  overtime : CellValue
  paidLeaveTime : CellValue
  paidLeaveUsedDays : CellValue
  paidLeaveRemainingDays : CellValue
deriving DecidableEq

/-- The all-sentinel default detail record. -/
def detail_default : DetailData :=
  DetailData.mk (CellValue.str ("N/A")) (CellValue.str ("N/A")) (CellValue.str ("N/A"))
    (CellValue.str ("N/A")) (CellValue.str ("N/A")) (CellValue.str ("N/A"))

/-- The numeric conversion of one detail value: commas are removed, a
text containing a decimal point is converted with the float constructor
and any other text with the int constructor; a conversion failure passes
the raw text through. -/
def parse_detail_value (dd_text : String) : CellValue :=
  let value_str := removeCommas dd_text
  if value_str.data.contains ('.') then
    match pythonFloatOfString value_str with
    | some q => CellValue.float q
    | none => CellValue.str value_str
  else
    match pythonIntOfString value_str with
    | some n => CellValue.int n
    | none => CellValue.str value_str

/-- The per-entry assignment of parse_payslip_detail: the entry is used
only when both parts are present; the four shared labels assign their
own field, and the two paid-leave labels of the page (written with the
synonym spelling) assign the canonical paid-leave fields; every other
label is ignored. -/
def parse_detail_step (acc : DetailData) (e : DlEntry) : DetailData :=
  match e.dt, e.dd with
  | some dt_text, some dd_text =>
    let value_num := parse_detail_value dd_text
    if dt_text = "総支給額" then { acc with totalPay := value_num }
    else if dt_text = "差引支給額" then { acc with netPay := value_num }
    else if dt_text = "総時間外" then { acc with overtime := value_num }
    else if dt_text = "有給消化時間" then { acc with paidLeaveTime := value_num }
    else if dt_text = "有休使用日数" then { acc with paidLeaveUsedDays := value_num }
    else if dt_text = "有休残日数" then { acc with paidLeaveRemainingDays := value_num }
    else acc
  | _, _ => acc

/-- Embedding of parse_payslip_detail (network_handler.py): a page
without the container element yields the all-sentinel record; otherwise
the definition-list entries are folded over the default record. -/
def parse_payslip_detail (html_div : Option (List DlEntry)) : DetailData :=
  match html_div with
  | none => detail_default
  | some dls => dls.foldl parse_detail_step detail_default

/-- Folding entries none of which carries a given label leaves any field
assigned only by that label unchanged. -/
theorem parse_detail_foldl_preserves (f : DetailData → CellValue) (L : String)
    (hstep : ∀ (acc : DetailData) (e : DlEntry), e.dt ≠ some L →
      f (parse_detail_step acc e) = f acc) :
    ∀ (dls : List DlEntry) (acc : DetailData),
      (∀ e ∈ dls, e.dt ≠ some L) →
      f (dls.foldl parse_detail_step acc) = f acc := by
  intro dls
  induction dls with
  | nil => intro acc _; rfl
  | cons e t ih =>
    intro acc h
    rw [List.foldl_cons, ih _ (fun x hx => h x (List.mem_cons_of_mem e hx)),
      hstep acc e (h e (List.mem_cons_self e t))]

/-- An entry not labelled with the total-pay label leaves the total-pay
field unchanged. -/
theorem step_preserves_totalPay (acc : DetailData) (e : DlEntry)
    (he : e.dt ≠ some ("総支給額")) :
    (parse_detail_step acc e).totalPay = acc.totalPay := by
  obtain ⟨dt, dd⟩ := e
  cases dt with
  | none => cases dd <;> rfl
  | some k =>
    cases dd with
    | none => rfl
    | some v =>
      simp only [parse_detail_step]
      split_ifs <;> simp_all

/-- An entry not labelled with the net-pay label leaves the net-pay
field unchanged. -/
theorem step_preserves_netPay (acc : DetailData) (e : DlEntry)
    (he : e.dt ≠ some ("差引支給額")) :
    (parse_detail_step acc e).netPay = acc.netPay := by
  obtain ⟨dt, dd⟩ := e
  cases dt with
  | none => cases dd <;> rfl
  | some k =>
    cases dd with
    | none => rfl
    | some v =>
      simp only [parse_detail_step]
      split_ifs <;> simp_all

/-- An entry not labelled with the overtime label leaves the overtime
field unchanged. -/
theorem step_preserves_overtime (acc : DetailData) (e : DlEntry)
    (he : e.dt ≠ some ("総時間外")) :
    (parse_detail_step acc e).overtime = acc.overtime := by
  obtain ⟨dt, dd⟩ := e
  cases dt with
  | none => cases dd <;> rfl
  | some k =>
    cases dd with
    | none => rfl
    | some v =>
      simp only [parse_detail_step]
      split_ifs <;> simp_all

/-- An entry not labelled with the leave-hours label leaves the
leave-hours field unchanged. -/
theorem step_preserves_paidLeaveTime (acc : DetailData) (e : DlEntry)
    (he : e.dt ≠ some ("有給消化時間")) :
    (parse_detail_step acc e).paidLeaveTime = acc.paidLeaveTime := by
  obtain ⟨dt, dd⟩ := e
  cases dt with
  | none => cases dd <;> rfl
  | some k =>
    cases dd with
    | none => rfl
    | some v =>
      simp only [parse_detail_step]
      split_ifs <;> simp_all

/-- An entry not carrying the page synonym label for used leave days
leaves the canonical used-days field unchanged. -/
theorem step_preserves_paidLeaveUsedDays (acc : DetailData) (e : DlEntry)
    (he : e.dt ≠ some ("有休使用日数")) :
    (parse_detail_step acc e).paidLeaveUsedDays = acc.paidLeaveUsedDays := by
  obtain ⟨dt, dd⟩ := e
  cases dt with
  | none => cases dd <;> rfl
  | some k =>
    cases dd with
    | none => rfl
    | some v =>
      simp only [parse_detail_step]
      split_ifs <;> simp_all

/-- An entry not carrying the page synonym label for remaining leave
days leaves the canonical remaining-days field unchanged. -/
theorem step_preserves_paidLeaveRemainingDays (acc : DetailData) (e : DlEntry)
    (he : e.dt ≠ some ("有休残日数")) :
    (parse_detail_step acc e).paidLeaveRemainingDays = acc.paidLeaveRemainingDays := by
  obtain ⟨dt, dd⟩ := e
  cases dt with
  | none => cases dd <;> rfl
  | some k =>
    cases dd with
    | none => rfl
    | some v =>
      simp only [parse_detail_step]
      split_ifs <;> simp_all

/-- C10: the detail parser maps the page synonym labels to the canonical
storage fields — an entry labelled with the synonym used-days label and
value 1.5 populates the canonical used-days field with 1.5, and likewise
the synonym remaining-days label populates the canonical remaining-days
field — and every one of the six fields whose triggering label does not
occur in the page is returned as the sentinel. -/
theorem c10_detail_label_mapping :
    (parse_payslip_detail (some [DlEntry.mk (some ("有休使用日数"))
        (some ("1.5"))])).paidLeaveUsedDays = CellValue.float (3 / 2) ∧
    (parse_payslip_detail (some [DlEntry.mk (some ("有休残日数"))
        (some ("10.5"))])).paidLeaveRemainingDays = CellValue.float (21 / 2) ∧
    (∀ dls : List DlEntry, (∀ e ∈ dls, e.dt ≠ some ("総支給額")) →
      (parse_payslip_detail (some dls)).totalPay = CellValue.str ("N/A")) ∧
    (∀ dls : List DlEntry, (∀ e ∈ dls, e.dt ≠ some ("差引支給額")) →
      (parse_payslip_detail (some dls)).netPay = CellValue.str ("N/A")) ∧
    (∀ dls : List DlEntry, (∀ e ∈ dls, e.dt ≠ some ("総時間外")) →
      (parse_payslip_detail (some dls)).overtime = CellValue.str ("N/A")) ∧
    (∀ dls : List DlEntry, (∀ e ∈ dls, e.dt ≠ some ("有給消化時間")) →
      (parse_payslip_detail (some dls)).paidLeaveTime = CellValue.str ("N/A")) ∧
    (∀ dls : List DlEntry, (∀ e ∈ dls, e.dt ≠ some ("有休使用日数")) →
      (parse_payslip_detail (some dls)).paidLeaveUsedDays = CellValue.str ("N/A")) ∧
    (∀ dls : List DlEntry, (∀ e ∈ dls, e.dt ≠ some ("有休残日数")) →
      (parse_payslip_detail (some dls)).paidLeaveRemainingDays = CellValue.str ("N/A")) := by
  refine ⟨?_, ?_, ?_, ?_, ?_, ?_, ?_, ?_⟩
  · have h : (parse_payslip_detail (some [DlEntry.mk (some ("有休使用日数"))
        (some ("1.5"))])).paidLeaveUsedDays
        = CellValue.float ((1 : ℚ) * (((1 : Nat) : ℚ) + ((5 : Nat) : ℚ) / 10 ^ (1 : Nat))) := rfl
    rw [h]
    norm_num
  · have h : (parse_payslip_detail (some [DlEntry.mk (some ("有休残日数"))
        (some ("10.5"))])).paidLeaveRemainingDays
        = CellValue.float ((1 : ℚ) * (((10 : Nat) : ℚ) + ((5 : Nat) : ℚ) / 10 ^ (1 : Nat))) := rfl
    rw [h]
    norm_num
  · intro dls h
    exact parse_detail_foldl_preserves DetailData.totalPay ("総支給額")
      step_preserves_totalPay dls detail_default h
  · intro dls h
    exact parse_detail_foldl_preserves DetailData.netPay ("差引支給額")
      step_preserves_netPay dls detail_default h
  · intro dls h
    exact parse_detail_foldl_preserves DetailData.overtime ("総時間外")
      step_preserves_overtime dls detail_default h
  · intro dls h
    exact parse_detail_foldl_preserves DetailData.paidLeaveTime ("有給消化時間")
      step_preserves_paidLeaveTime dls detail_default h
  · intro dls h
    exact parse_detail_foldl_preserves DetailData.paidLeaveUsedDays ("有休使用日数")
      step_preserves_paidLeaveUsedDays dls detail_default h
  · intro dls h
    exact parse_detail_foldl_preserves DetailData.paidLeaveRemainingDays ("有休残日数")
      step_preserves_paidLeaveRemainingDays dls detail_default h

/-- C10 witness: on a page with no entries at all, the total-pay field
comes back as the sentinel. -/
theorem c10_witness : (parse_payslip_detail (some [])).totalPay = CellValue.str ("N/A") :=
  c10_detail_label_mapping.2.2.1 [] (by simp)

/-! ## main_controller.py -/

/-- The delta computation of run_main_logic: the set of months that must
be fetched is the required set minus the already-present set. -/
def compute_delta (required_months_set all_existing_dates_set : Finset String) :
    Finset String :=
  required_months_set \ all_existing_dates_set

/-- The network-skip condition of run_main_logic: the whole HTTP phase
runs only when the delta is nonempty. -/
def http_phase_skipped (final_target_dates_set : Finset String) : Bool :=
  final_target_dates_set = ∅

/-- C3: the delta is the set difference of required and existing, so if
a successful merge extends the existing set by the delta, a subsequent
run with the same required set computes an empty delta and skips the
network phase entirely. -/
theorem c3_delta_empty_after_merge :
    ∀ required existing : Finset String,
      compute_delta required (existing ∪ compute_delta required existing) = ∅ ∧
      http_phase_skipped
        (compute_delta required (existing ∪ compute_delta required existing)) = true := by
  intro required existing
  have h : compute_delta required (existing ∪ compute_delta required existing) = ∅ := by
    ext x
    simp only [compute_delta, Finset.mem_sdiff, Finset.mem_union, Finset.not_mem_empty,
      iff_false]
    tauto
  exact ⟨h, by simp [http_phase_skipped, h]⟩

/-- Model of the two-digit zero-padded rendering of an integer (the
Python format specifier 02d): the decimal rendering, left-padded with a
zero when it is a single character. -/
def format02d (n : Int) : String :=
  let s := toString n
  if s.length < 2 then ("0" ++ s) else s

/-- The era-year substring used by run_main_logic to select the records
of one Gregorian year from their date labels. -/
def target_reiwa_year_str (year : Int) : String :=
  "令和" ++ format02d (year - 2018) ++ "年"

/-- Model of the outer regular-expression search of _sort_key_for_csv:
the first contiguous occurrence of the era marker, a nonempty digit run,
the year character, a second nonempty digit run and the month character,
returning both numeric groups. -/
def findReiwaNenMonth : List Char → Option (Nat × Nat)
  | [] => none
  | c :: rest =>
    if c = '令' then
      match rest with
      | '和' :: rest2 =>
        let ds := rest2.takeWhile Char.isDigit
        if ds ≠ [] then
          match rest2.drop ds.length with
          | '年' :: rest3 =>
            let ms := rest3.takeWhile Char.isDigit
            if ms ≠ [] ∧ (rest3.drop ms.length).head? = some ('月') then
              some (natOfDigits ds, natOfDigits ms)
            else findReiwaNenMonth rest
          | _ => findReiwaNenMonth rest
        else findReiwaNenMonth rest
      | _ => findReiwaNenMonth rest
    else findReiwaNenMonth rest

/-- Embedding of _sort_key_for_csv (csv_handler.py): the sort key is the
first day of the Gregorian month decoded from the date label; labels
that do not contain the pattern, or whose decoded month is not a valid
datetime month (or whose year exceeds the datetime range), sort to the
minimum, modelled as none. -/
def sort_key_for_csv (item : PayslipRow) : Option (Int × Nat) :=
  match findReiwaNenMonth item.dateLabel.data with
  | none => none
  | some ym =>
    let year : Int := (ym.1 : Int) + 2018
    if 1 ≤ ym.2 ∧ ym.2 ≤ 12 ∧ year ≤ 9999 then some (year, ym.2) else none

/-- Strict comparison of two sort keys, the minimum (none) first. -/
def sortKeyLT (a b : Option (Int × Nat)) : Bool :=
  match a, b with
  | none, none => false
  | none, some _ => true
  | some _, none => false
  | some x, some y => decide (x.1 < y.1 ∨ (x.1 = y.1 ∧ x.2 < y.2))

/-- Insertion step of a stable sort: the element is placed after every
strictly smaller element, so elements with equal keys keep their
original order, as Python list sorting guarantees. -/
def pyInsert (lt : PayslipRow → PayslipRow → Bool) (x : PayslipRow) :
    List PayslipRow → List PayslipRow
  | [] => [x]
  | y :: ys => if lt y x then y :: pyInsert lt x ys else x :: y :: ys

/-- Model of Python stable sorting of a record list. -/
def pySorted (lt : PayslipRow → PayslipRow → Bool) : List PayslipRow → List PayslipRow
  | [] => []
  | x :: xs => pyInsert lt x (pySorted lt xs)

/-- The record order used when sorting for display and persistence. -/
def rowDateLT (a b : PayslipRow) : Bool :=
  sortKeyLT (sort_key_for_csv a) (sort_key_for_csv b)

/-- Embedding of _sum_safe (summary_calculator.py): sum the int and
float entries of the list, ignoring everything else. -/
def sum_safe (items : List CellValue) : ℚ :=
  items.foldl (fun total v =>
    match v with
    | CellValue.int n => total + (n : ℚ)
    | CellValue.float q => total + q
    | CellValue.str _ => total) 0

/-- The calendar-year summary record of calculate_rekigun_summary. -/
structure RekigunSummary where
  total_pay : ℚ
  total_net_pay : ℚ
  total_overtime : ℚ
  latest_paid_leave_time : CellValue
  latest_paid_leave_used_days : CellValue
  latest_paid_leave_remaining_days : CellValue
deriving DecidableEq

/-- Embedding of calculate_rekigun_summary (summary_calculator.py): an
empty list yields the default summary; otherwise the three totals are
sentinel-safe sums over the columns and the three latest fields are read
from the last record of the (pre-sorted) list. -/
def calculate_rekigun_summary (data_list_for_year : List PayslipRow) : RekigunSummary :=
  match data_list_for_year with
  | [] =>
    RekigunSummary.mk 0 0 0 (CellValue.str ("N/A")) (CellValue.str ("N/A"))
      (CellValue.str ("N/A"))
  | x :: xs =>
    let latest := (x :: xs).getLast (List.cons_ne_nil x xs)
    RekigunSummary.mk
      (sum_safe ((x :: xs).map PayslipRow.totalPay))
      (sum_safe ((x :: xs).map PayslipRow.netPay))
      (sum_safe ((x :: xs).map PayslipRow.overtime))
      latest.paidLeaveTime latest.paidLeaveUsedDays latest.paidLeaveRemainingDays

/-- The per-field conversion of the summary pre-processing loop of
run_main_logic: anything that is not an int or a float becomes the float
zero. -/
def numeric_or_zero (v : CellValue) : CellValue :=
  match v with
  | CellValue.int n => CellValue.int n
  | CellValue.float q => CellValue.float q
  | CellValue.str _ => CellValue.float 0

/-- The summary pre-processing of run_main_logic: copy a record with all
six numeric columns coerced to numbers. -/
def to_calc_item (item : PayslipRow) : PayslipRow :=
  { item with
    totalPay := numeric_or_zero item.totalPay
    netPay := numeric_or_zero item.netPay
    overtime := numeric_or_zero item.overtime
    paidLeaveTime := numeric_or_zero item.paidLeaveTime
    paidLeaveUsedDays := numeric_or_zero item.paidLeaveUsedDays
    paidLeaveRemainingDays := numeric_or_zero item.paidLeaveRemainingDays }

/-- The fixed dataset file name of main_controller.py. -/
def CSV_FILENAME : String := "年間サマリー_全期間.csv"

/-- Embedding of save_to_csv (csv_handler.py) at the level observable by
the controller: an empty dataset refuses to write and returns none, a
failing file write returns none, and otherwise the storage-relative path
is returned.  (The rows are written sorted by the same key as above;
the written bytes are not part of the returned value.) -/
def save_to_csv (data_list : List PayslipRow) (write_fails : Bool) : Option String :=
  if data_list = [] then none
  else if write_fails then none
  else some ("output/" ++ CSV_FILENAME)

/-- The result dictionary of run_main_logic: an error-only dictionary, a
warning-only dictionary, or the full success structure with the dataset
path, the echoed target year, the ui-year record subset, the
calendar-year summary (none models the empty dictionary left when the
ui-year subset is empty), the fiscal-year overtime and the
per-other-year record counts. -/
inductive RunResultDict where
  | error (msg : String)
  | warning (msg : String)
  | success (csv_path : String) (ui_target_year : Int)
      (final_data_ui : List PayslipRow) (summary_data_rekigun : Option RekigunSummary)
      (summary_nendo_overtime : ℚ) (other_years_data : List (Int × Nat))

/-- Whether a result dictionary is the full success structure. -/
def is_success_result : RunResultDict → Bool
  | RunResultDict.success _ _ _ _ _ _ => true
  | _ => false

/-- Embedding of the continuation of run_main_logic (main_controller.py)
after every per-year network call has succeeded: first the encrypted
credentials are written to the env file, and if that raises the run
returns success with a warning-only dictionary immediately — before the
merge, the save and the summary steps; otherwise the new records are
appended to the loaded data, the merged dataset is saved (a failed save
is a run failure), the ui-year subset is extracted by substring match
and sorted, the summaries are computed and the full success structure is
returned. -/
def run_main_logic_after_network_success
    (ui_target_year : Int)
    (target_years_to_run : Finset Int)
    (csv_path_rel : String)
    (all_existing_data : List PayslipRow)
    (all_new_data_list : List PayslipRow)
    (env_write_error : Option String)
    (csv_write_fails : Bool) : Bool × RunResultDict :=
  match env_write_error with
  | some e =>
    (true, RunResultDict.warning (".env ファイルへの保存に失敗しました: " ++ e))
  | none =>
    let merged := all_existing_data ++ all_new_data_list
    match save_to_csv merged csv_write_fails with
    | none =>
      (false, RunResultDict.error ("全期間CSV (" ++ CSV_FILENAME ++ ") の保存に失敗しました。"))
    | some _ =>
      let year_str := target_reiwa_year_str ui_target_year
      let final_data_ui :=
        pySorted rowDateLT (merged.filter (fun item => pyIn year_str item.dateLabel))
      let summary_nendo := calculate_nendo_overtime merged ui_target_year
      let summary_rekigun : Option RekigunSummary :=
        match final_data_ui with
        | [] => none
        | x :: xs =>
          let s := calculate_rekigun_summary ((x :: xs).map to_calc_item)
          let latest := (x :: xs).getLast (List.cons_ne_nil x xs)
          some { s with
            latest_paid_leave_time := latest.paidLeaveTime
            latest_paid_leave_used_days := latest.paidLeaveUsedDays
            latest_paid_leave_remaining_days := latest.paidLeaveRemainingDays }
      let other_years :=
        ((target_years_to_run.filter (fun y => y ≠ ui_target_year)).sort (· ≤ ·)).map
          (fun y => (y, (merged.filter (fun item =>
            pyIn (target_reiwa_year_str y) item.dateLabel)).length))
      (true, RunResultDict.success csv_path_rel ui_target_year final_data_ui
        summary_rekigun summary_nendo other_years)

/-- C1 counterexample: with one successfully fetched record and an env
write that raises, the run returns success but the result is the
warning-only dictionary — the merge and save never happen and the full
result structure (dataset path, summaries) is not returned, even though
the save oracle would have succeeded. -/
theorem c1_counterexample :
    run_main_logic_after_network_success 2023 ∅ ("output/年間サマリー_全期間.csv") []
      [PayslipRow.mk ("令和05年04月度給与") (CellValue.int 250000) (CellValue.int 200000)
        (CellValue.float 10) (CellValue.str ("N/A")) (CellValue.str ("N/A"))
        (CellValue.str ("N/A"))]
      (some ("disk full")) false
      = (true, RunResultDict.warning (".env ファイルへの保存に失敗しました: disk full")) ∧
    is_success_result
      (run_main_logic_after_network_success 2023 ∅ ("output/年間サマリー_全期間.csv") []
        [PayslipRow.mk ("令和05年04月度給与") (CellValue.int 250000) (CellValue.int 200000)
          (CellValue.float 10) (CellValue.str ("N/A")) (CellValue.str ("N/A"))
          (CellValue.str ("N/A"))]
        (some ("disk full")) false).2 = false :=
  ⟨rfl, rfl⟩

/-- C1 amended: whenever the env write raises after a fully successful
network phase, the run returns success paired with the warning-only
dictionary, for every dataset, year set and save outcome — so the
fetched records are not merged or persisted and the full result
structure is not returned on this path. -/
theorem c1_amended_env_write_failure_warning_only
    (ui_target_year : Int) (target_years_to_run : Finset Int) (csv_path_rel : String)
    (all_existing_data all_new_data_list : List PayslipRow) (e : String)
    (csv_write_fails : Bool) :
    run_main_logic_after_network_success ui_target_year target_years_to_run csv_path_rel
        all_existing_data all_new_data_list (some e) csv_write_fails
      = (true, RunResultDict.warning (".env ファイルへの保存に失敗しました: " ++ e)) ∧
    is_success_result
      (run_main_logic_after_network_success ui_target_year target_years_to_run csv_path_rel
        all_existing_data all_new_data_list (some e) csv_write_fails).2 = false :=
  ⟨rfl, rfl⟩

/-- C1 amended witness: the warning-only return at one concrete input. -/
theorem c1_witness :
    run_main_logic_after_network_success 2024 ∅ ("output/年間サマリー_全期間.csv") [] []
        (some ("boom")) true
      = (true, RunResultDict.warning (".env ファイルへの保存に失敗しました: " ++ "boom")) :=
  (c1_amended_env_write_failure_warning_only 2024 ∅ ("output/年間サマリー_全期間.csv") [] []
    ("boom") true).1

/-- C3 witness: the delta of a second run at a concrete pair of sets. -/
theorem c3_witness :
    compute_delta ∅ (∅ ∪ compute_delta ∅ ∅) = ∅ :=
  (c3_delta_empty_after_merge ∅ ∅).1

/-- C4 witness: the sum characterization at a concrete input. -/
theorem c4_witness :
    calculate_nendo_overtime [] 2023 =
      ((List.filter (in_nendo_window 2023) []).map
        (fun r => overtime_as_number r.overtime)).sum :=
  c4_fiscal_year_overtime.1 [] 2023

/-- C9 amended witness: the overtime fallback at a concrete row. -/
theorem c9_witness :
    (load_row [(("年月日"), ("令和05年03月度給与")), (("残有給日数"), ("2.5"))]).overtime
      = safe_convert_to_float (some ("2.5")) :=
  (c9_amended_legacy_fallback_all_columns ("令和05年03月度給与") ("2.5")).1
